import Mathlib

/-!
Shallow embedding of the Portfolio Aggregation Engine of
`src/ai_portfolio.py` (class `AIPortfolioAnalyzer`).

Modelling conventions:
* Python floats are modelled as rationals (`ℚ`); the literal catalog values
  and all weights in the claims are exactly representable, so no rounding
  discrepancy with binary floats arises at the inputs exercised here.
* Python `round(x, n)` is round-half-to-even (bankers rounding); `pyRound`
  reproduces it exactly on `ℚ`.
* Python dicts are modelled as association lists in insertion order
  (`List (String × α)`); `dict.get(k, 0) + w` updates keep the position of
  an existing key and append a new key, as `bump` does.
* The live-price provider (`yf.download`) is an external collaborator; its
  outcome is a parameter: either an exception (`.error`) or a per-symbol
  history of closing prices (`.ok`, empty list = empty DataFrame).  A
  non-empty history whose first close is `0` makes the Python loop raise
  `ZeroDivisionError`, which the bare `except` catches, so the model folds
  that case into the all-absent branch as the source does.
* `analyze_portfolio` returns `Except AnalyzeError Report`: the source
  returns the error strings `"Error: Portfolio is empty"` /
  `"Error: Portfolio weights sum to zero"` early (no report), and otherwise
  a formatted report string; `Report` carries exactly the numeric content
  and field set of that string, with the rounding the f-string applies
  (`round(_, 2)` for the weighted statistics, `:.1f` for breakdown
  percentages, the raw `total_weight` for total allocation).
-/

/-- Bankers rounding to the nearest integer, as the Python `round` builtin:
ties go to the even integer.  The branch conditions compare the fractional
part of `q` with `1 / 2`, written multiplied out (`2 * q` against
`2 * ⌊q⌋ + 1`) so the fractional part never appears as a subtraction. -/
def pyRound (q : ℚ) : ℤ :=
  if 2 * q < 2 * (⌊q⌋ : ℚ) + 1 then ⌊q⌋
  else if 2 * (⌊q⌋ : ℚ) + 1 < 2 * q then ⌊q⌋ + 1
  else if ⌊q⌋ % 2 = 0 then ⌊q⌋ else ⌊q⌋ + 1

/-- The Python call `round(q, n)`: round to `n` decimal places, ties to even. -/
def roundTo (n : ℕ) (q : ℚ) : ℚ := (pyRound (q * 10 ^ n) : ℚ) / 10 ^ n

/-- `round(q, 2)` of the source. -/
def round2 (q : ℚ) : ℚ := roundTo 2 q

/-- The `:.1f` formatting of the source applied to breakdown percentages. -/
def round1 (q : ℚ) : ℚ := roundTo 1 q

/-- One catalog entry of `self.stocks`.  Field names follow the dict keys of
the source; `ret` stands for the source key `"return"`, which is a Lean
keyword. -/
structure Stock where
  name : String
  sector : String
  beta : ℚ
  ret : ℚ
  risk : String
  volatility : ℚ
deriving DecidableEq

/-- The predefined stock catalog `self.stocks` set in `__init__`. -/
def stocks : List (String × Stock) :=
  [ ("AAPL",  ⟨"Apple Inc.",        "Technology", 1.2, 15.0, "Medium", 0.25⟩),
    ("GOOGL", ⟨"Alphabet Inc.",     "Technology", 1.3, 12.0, "Medium", 0.28⟩),
    ("MSFT",  ⟨"Microsoft Corp.",   "Technology", 1.1, 14.0, "Medium", 0.22⟩),
    ("NVDA",  ⟨"NVIDIA Corp.",      "Technology", 1.8, 20.0, "High",   0.45⟩),
    ("JPM",   ⟨"JPMorgan Chase",    "Financial",  1.0, 12.0, "Low",    0.20⟩),
    ("BAC",   ⟨"Bank of America",   "Financial",  1.2, 10.0, "Medium", 0.25⟩),
    ("JNJ",   ⟨"Johnson & Johnson", "Healthcare", 0.7,  8.0, "Low",    0.15⟩),
    ("PFE",   ⟨"Pfizer",            "Healthcare", 0.8,  6.0, "Low",    0.18⟩),
    ("XOM",   ⟨"ExxonMobil",        "Energy",     1.1,  8.0, "Medium", 0.30⟩),
    ("SPY",   ⟨"S&P 500 ETF",       "Index",      1.0, 10.0, "Low",    0.15⟩),
    ("TSLA",  ⟨"Tesla Inc.",        "Automotive", 2.0, 25.0, "High",   0.55⟩),
    ("AMZN",  ⟨"Amazon.com",        "Consumer",   1.3, 16.0, "Medium", 0.30⟩) ]

/-- One entry of the dict returned by `fetch_live_data_batch`:
`{"price": …, "daily_change": …}`, each `None` (absent) on degradation. -/
structure LiveEntry where
  price : Option ℚ
  daily_change : Option ℚ
deriving DecidableEq

/-- Outcome of the live-price provider (`yf.download`): an exception, or a
per-symbol list of closing prices (`[]` models an empty DataFrame). -/
def ProviderOutcome : Type := Except Unit (String → List ℚ)

/-- Whether processing the history of one symbol raises inside the `try` block:
a non-empty history whose first close (`prev_close`) is `0` raises
`ZeroDivisionError` when the daily change is computed. -/
def histRaisesAt (closes : List ℚ) : Bool :=
  match closes with
  | [] => false
  | prev_close :: _ => decide (prev_close = 0)

/-- The per-symbol body of the loop in `fetch_live_data_batch`, for the
non-raising case: empty history gives the absent entry, otherwise
`price = round(last close, 2)` and
`daily_change = round((price - prev_close) / prev_close * 100, 2)`. -/
def liveEntryFor (closes : List ℚ) : LiveEntry :=
  match closes with
  | [] => ⟨none, none⟩
  | prev_close :: rest =>
    let price := round2 ((prev_close :: rest).getLastD 0)
    ⟨some price, some (round2 ((price - prev_close) / prev_close * 100))⟩

/-- `AIPortfolioAnalyzer.fetch_live_data_batch`: one batched provider call;
on a provider exception, or on any exception inside the loop (zero
`prev_close`), every requested symbol is mapped to the absent entry by the
bare `except` handler. -/
def fetch_live_data_batch (provider : ProviderOutcome) (symbols : List String) :
    List (String × LiveEntry) :=
  match provider with
  | .error _ => symbols.map (fun s => (s, ⟨none, none⟩))
  | .ok hist_data =>
    if symbols.any (fun s => histRaisesAt (hist_data s)) then
      symbols.map (fun s => (s, ⟨none, none⟩))
    else
      symbols.map (fun s => (s, liveEntryFor (hist_data s)))

/-- The two early-return error messages of `analyze_portfolio`. -/
inductive AnalyzeError where
  | EmptyPortfolioError
  | ZeroWeightError
deriving DecidableEq

/-- The error string the source returns for each error case. -/
def AnalyzeError.message : AnalyzeError → String
  | .EmptyPortfolioError => "Error: Portfolio is empty"
  | .ZeroWeightError => "Error: Portfolio weights sum to zero"

/-- The numeric content and field set of the report string built by
`analyze_portfolio`, in its field order. -/
structure Report where
  total_allocation : ℚ
  weighted_beta : ℚ
  weighted_return : ℚ
  weighted_volatility : ℚ
  portfolio_risk : String
  sector_breakdown : List (String × ℚ)
  risk_distribution : List (String × ℚ)
deriving DecidableEq

/-- Loop state of the accumulation loop in `analyze_portfolio`. -/
structure LoopAcc where
  weighted_beta : ℚ
  weighted_return : ℚ
  weighted_volatility : ℚ
  sectors : List (String × ℚ)
  risk_levels : List (String × ℚ)
deriving DecidableEq

/-- `d.get(k, 0) + w` followed by storing at `k`: an existing key keeps its
position, a new key is appended (Python dict update order). -/
def bump : List (String × ℚ) → String → ℚ → List (String × ℚ)
  | [], k, w => [(k, w)]
  | (k', v) :: rest, k, w =>
    if k' = k then (k', v + w) :: rest else (k', v) :: bump rest k w

/-- `sum(portfolio.values())`. -/
def sumWeights (portfolio : List (String × ℚ)) : ℚ :=
  (portfolio.map Prod.snd).sum

/-- One iteration of the `for symbol, weight in portfolio.items()` loop:
unknown symbols are skipped (`continue`), known ones accumulate the
weighted statistics and the raw sector / risk weights. -/
def stepSymbol (catalog : List (String × Stock)) (total_weight : ℚ)
    (acc : LoopAcc) (entry : String × ℚ) : LoopAcc :=
  match catalog.lookup entry.1 with
  | none => acc
  | some stock =>
    let weight_pct := entry.2 / total_weight
    { weighted_beta := acc.weighted_beta + stock.beta * weight_pct,
      weighted_return := acc.weighted_return + stock.ret * weight_pct,
      weighted_volatility := acc.weighted_volatility + stock.volatility * weight_pct,
      sectors := bump acc.sectors stock.sector entry.2,
      risk_levels := bump acc.risk_levels stock.risk entry.2 }

/-- The whole accumulation loop, from the zero state. -/
def runLoop (catalog : List (String × Stock)) (total_weight : ℚ)
    (portfolio : List (String × ℚ)) : LoopAcc :=
  portfolio.foldl (stepSymbol catalog total_weight) ⟨0, 0, 0, [], []⟩

/-- `AIPortfolioAnalyzer.analyze_portfolio`, parametric in the catalog
(`self.stocks`) and the live-provider outcome.  Validation, the (unused)
live-data fetch, the accumulation loop, and the report fields with the
exact rounding the output f-string applies. -/
def analyze_portfolio (catalog : List (String × Stock))
    (provider : ProviderOutcome) (portfolio : List (String × ℚ)) :
    Except AnalyzeError Report :=
  if portfolio.isEmpty then .error .EmptyPortfolioError
  else
    let total_weight := sumWeights portfolio
    if total_weight = 0 then .error .ZeroWeightError
    else
      let symbols := portfolio.map Prod.fst
      let _live_data := fetch_live_data_batch provider symbols
      let acc := runLoop catalog total_weight portfolio
      .ok
        { total_allocation := total_weight,
          weighted_beta := round2 acc.weighted_beta,
          weighted_return := round2 acc.weighted_return,
          weighted_volatility := round2 acc.weighted_volatility,
          portfolio_risk :=
            if acc.weighted_beta > 1.3 then "High"
            else if acc.weighted_beta > 0.8 then "Medium" else "Low",
          sector_breakdown :=
            acc.sectors.map (fun sw => (sw.1, round1 (sw.2 / total_weight * 100))),
          risk_distribution :=
            acc.risk_levels.map (fun rw => (rw.1, round1 (rw.2 / total_weight * 100))) }

/-- Whether `analyze_portfolio` produced a report (rather than an input
error). -/
def isOk : Except AnalyzeError Report → Bool
  | .ok _ => true
  | .error _ => false

/-- Sum of the values of an association list (used for breakdown weight
totals). -/
def valuesSum (m : List (String × ℚ)) : ℚ := (m.map Prod.snd).sum

/-- Total weight carried by symbols present in the catalog. -/
def knownWeight (catalog : List (String × Stock)) (portfolio : List (String × ℚ)) : ℚ :=
  valuesSum (portfolio.filter (fun e => (catalog.lookup e.1).isSome))

/-- Total weight carried by symbols absent from the catalog. -/
def unknownWeight (catalog : List (String × Stock)) (portfolio : List (String × ℚ)) : ℚ :=
  valuesSum (portfolio.filter (fun e => ¬ (catalog.lookup e.1).isSome))

/-- A synthetic single-entry catalog with a given beta, as the spec uses
for the risk-tier boundary cases. -/
def synthCatalog (b : ℚ) : List (String × Stock) :=
  [("XXXX", ⟨"Synthetic", "SectorX", b, 10.0, "Low", 0.2⟩)]

/-- The risk tier reported for the single-holding portfolio
`{"XXXX": 100}` over the synthetic catalog with the given beta. -/
def tierAt (b : ℚ) : Option String :=
  (analyze_portfolio (synthCatalog b) (.error ()) [("XXXX", 100)]).toOption.map
    Report.portfolio_risk


theorem analyze_portfolio_ok (catalog : List (String × Stock)) (o : ProviderOutcome)
    (p : List (String × ℚ)) (h1 : p ≠ []) (h2 : sumWeights p ≠ 0) :
    analyze_portfolio catalog o p = .ok
      { total_allocation := sumWeights p,
        weighted_beta := round2 (runLoop catalog (sumWeights p) p).weighted_beta,
        weighted_return := round2 (runLoop catalog (sumWeights p) p).weighted_return,
        weighted_volatility := round2 (runLoop catalog (sumWeights p) p).weighted_volatility,
        portfolio_risk :=
          if (runLoop catalog (sumWeights p) p).weighted_beta > 1.3 then "High"
          else if (runLoop catalog (sumWeights p) p).weighted_beta > 0.8 then "Medium" else "Low",
        sector_breakdown :=
          (runLoop catalog (sumWeights p) p).sectors.map
            (fun sw => (sw.1, round1 (sw.2 / sumWeights p * 100))),
        risk_distribution :=
          (runLoop catalog (sumWeights p) p).risk_levels.map
            (fun rw => (rw.1, round1 (rw.2 / sumWeights p * 100))) } := by
  unfold analyze_portfolio
  rw [if_neg, if_neg h2]
  simpa [List.isEmpty_iff] using h1

theorem lookup_map_self {α : Type} (f : String → α) (s : String) :
    ∀ (symbols : List String), s ∈ symbols →
      (symbols.map (fun x => (x, f x))).lookup s = some (f s)
  | [], h => by cases h
  | a :: rest, h => by
    by_cases hs : s = a
    · subst hs; simp [List.lookup]
    · have hm : s ∈ rest := by
        rcases List.mem_cons.mp h with h1 | h1
        · exact absurd h1 hs
        · exact h1
      have hb : (s == a) = false := beq_eq_false_iff_ne.mpr hs
      simp [List.lookup, hb, lookup_map_self f s rest hm]

theorem runLoop_all_unknown_aux (catalog : List (String × Stock)) (t : ℚ) :
    ∀ (p : List (String × ℚ)) (acc : LoopAcc),
      (∀ s ∈ p.map Prod.fst, catalog.lookup s = none) →
      p.foldl (stepSymbol catalog t) acc = acc
  | [], acc, _ => rfl
  | e :: rest, acc, h => by
    have he : catalog.lookup e.1 = none := h e.1 (by simp)
    have hr : ∀ s ∈ rest.map Prod.fst, catalog.lookup s = none := by
      intro s hs; exact h s (by simp [hs])
    simp only [List.foldl]
    rw [show stepSymbol catalog t acc e = acc by simp [stepSymbol, he]]
    exact runLoop_all_unknown_aux catalog t rest acc hr

theorem runLoop_all_unknown (catalog : List (String × Stock)) (t : ℚ)
    (p : List (String × ℚ)) (h : ∀ s ∈ p.map Prod.fst, catalog.lookup s = none) :
    runLoop catalog t p = ⟨0, 0, 0, [], []⟩ :=
  runLoop_all_unknown_aux catalog t p _ h

theorem valuesSum_bump (k : String) (w : ℚ) :
    ∀ (m : List (String × ℚ)), valuesSum (bump m k w) = valuesSum m + w
  | [] => by simp [bump, valuesSum]
  | (k', v) :: rest => by
    by_cases hk : k' = k
    · simp [bump, hk, valuesSum]; ring
    · have ih := valuesSum_bump k w rest
      simp only [bump, if_neg hk, valuesSum, List.map_cons, List.sum_cons] at *
      rw [ih]; ring

theorem knownWeight_cons (catalog : List (String × Stock)) (e : String × ℚ)
    (rest : List (String × ℚ)) :
    knownWeight catalog (e :: rest) =
      (if (catalog.lookup e.1).isSome then e.2 else 0) + knownWeight catalog rest := by
  cases h : (catalog.lookup e.1).isSome <;>
    simp [knownWeight, valuesSum, List.filter, h]

theorem foldl_breakdown_sums (catalog : List (String × Stock)) (t : ℚ) :
    ∀ (p : List (String × ℚ)) (acc : LoopAcc),
      valuesSum (p.foldl (stepSymbol catalog t) acc).sectors
          = valuesSum acc.sectors + knownWeight catalog p ∧
      valuesSum (p.foldl (stepSymbol catalog t) acc).risk_levels
          = valuesSum acc.risk_levels + knownWeight catalog p
  | [], acc => by simp [knownWeight, valuesSum]
  | e :: rest, acc => by
    have ih := foldl_breakdown_sums catalog t rest
    rw [knownWeight_cons]
    cases hl : catalog.lookup e.1 with
    | none =>
      have : stepSymbol catalog t acc e = acc := by simp [stepSymbol, hl]
      simp only [List.foldl, this, hl, Option.isSome_none, if_neg Bool.false_ne_true]
      constructor <;> [rw [(ih acc).1]; rw [(ih acc).2]] <;> ring
    | some st =>
      simp only [List.foldl, stepSymbol, hl]
      refine ⟨?_, ?_⟩
      · rw [(ih _).1]; simp [valuesSum_bump]; ring
      · rw [(ih _).2]; simp [valuesSum_bump]; ring

theorem runLoop_breakdown_sums (catalog : List (String × Stock)) (t : ℚ)
    (p : List (String × ℚ)) :
    valuesSum (runLoop catalog t p).sectors = knownWeight catalog p ∧
    valuesSum (runLoop catalog t p).risk_levels = knownWeight catalog p := by
  have h := foldl_breakdown_sums catalog t p ⟨0, 0, 0, [], []⟩
  simpa [runLoop, valuesSum] using h

theorem known_add_unknown (catalog : List (String × Stock)) :
    ∀ (p : List (String × ℚ)),
      knownWeight catalog p + unknownWeight catalog p = sumWeights p
  | [] => by simp [knownWeight, unknownWeight, sumWeights, valuesSum]
  | e :: rest => by
    have ih := known_add_unknown catalog rest
    cases hl : catalog.lookup e.1 <;>
      simp [knownWeight, unknownWeight, sumWeights, valuesSum, List.filter, hl] at * <;>
      linarith

theorem unknownWeight_nonneg (catalog : List (String × Stock))
    (p : List (String × ℚ)) (hnn : ∀ e ∈ p, 0 ≤ e.2) :
    0 ≤ unknownWeight catalog p := by
  unfold unknownWeight valuesSum
  apply List.sum_nonneg
  intro x hx
  rcases List.mem_map.mp hx with ⟨e, he, rfl⟩
  exact hnn e (List.mem_of_mem_filter he)

theorem round2_zero : round2 0 = 0 := by
  norm_num [round2, roundTo, pyRound]

/-- Catalog lookup fact used by concrete evaluations. -/
theorem lookup_AAPL :
    stocks.lookup "AAPL" = some ⟨"Apple Inc.", "Technology", 1.2, 15.0, "Medium", 0.25⟩ := by
  simp [stocks, List.lookup]

/-- Catalog lookup fact used by concrete evaluations. -/
theorem lookup_GOOGL :
    stocks.lookup "GOOGL" = some ⟨"Alphabet Inc.", "Technology", 1.3, 12.0, "Medium", 0.28⟩ := by
  simp [stocks, List.lookup]

/-- Catalog lookup fact used by concrete evaluations. -/
theorem lookup_JPM :
    stocks.lookup "JPM" = some ⟨"JPMorgan Chase", "Financial", 1.0, 12.0, "Low", 0.20⟩ := by
  simp [stocks, List.lookup]

/-- The symbol `ZZZZ` is not in the catalog. -/
theorem lookup_ZZZZ : stocks.lookup "ZZZZ" = none := by
  simp [stocks, List.lookup]

/-- Claim C1: for every weight map, `analyze_portfolio` fails with the
empty-portfolio error exactly when the map is empty, and with the
zero-weight error when the map is non-empty but its weight sum is zero;
in both cases the call returns the error alone, with no report. -/
theorem analyze_validation_errors (o : ProviderOutcome) (p : List (String × ℚ)) :
    (p = [] → analyze_portfolio stocks o p = .error .EmptyPortfolioError) ∧
    (p ≠ [] → sumWeights p = 0 → analyze_portfolio stocks o p = .error .ZeroWeightError) := by
  constructor
  · intro h; subst h; rfl
  · intro h1 h2
    unfold analyze_portfolio
    rw [if_neg, if_pos h2]
    simpa [List.isEmpty_iff] using h1

/-- Witness for C1 at the inputs named by the spec: the empty map, and the
map `{"AAPL": 0, "GOOGL": 0}`. -/
theorem analyze_validation_errors_witness :
    analyze_portfolio stocks (.error ()) [] = .error .EmptyPortfolioError ∧
    ([(("AAPL" : String), (0 : ℚ)), ("GOOGL", 0)] ≠ [] ∧
      sumWeights [("AAPL", 0), ("GOOGL", 0)] = 0) ∧
    analyze_portfolio stocks (.error ()) [("AAPL", 0), ("GOOGL", 0)] = .error .ZeroWeightError :=
  ⟨(analyze_validation_errors (.error ()) []).1 rfl,
   ⟨by decide, by norm_num [sumWeights]⟩,
   (analyze_validation_errors (.error ()) [("AAPL", 0), ("GOOGL", 0)]).2
     (by decide) (by norm_num [sumWeights])⟩

/-- Claim C5: the report of `analyze_portfolio` is the same for every
provider outcome (success, per-symbol absence, or total failure), and a
total provider failure still produces a full report on valid input — the
failure is never propagated. -/
theorem report_independent_of_live_data :
    (∀ (catalog : List (String × Stock)) (o₁ o₂ : ProviderOutcome) (p : List (String × ℚ)),
      analyze_portfolio catalog o₁ p = analyze_portfolio catalog o₂ p) ∧
    (∀ (e : Unit) (p : List (String × ℚ)), p ≠ [] → sumWeights p ≠ 0 →
      isOk (analyze_portfolio stocks (.error e) p) = true) := by
  constructor
  · intro catalog o₁ o₂ p; rfl
  · intro e p h1 h2
    rw [analyze_portfolio_ok stocks (.error e) p h1 h2]
    rfl

/-- Witness for C5 at `{"AAPL": 100}` under a raising provider. -/
theorem report_independent_of_live_data_witness :
    ([(("AAPL" : String), (100 : ℚ))] ≠ [] ∧ sumWeights [("AAPL", 100)] ≠ 0) ∧
    isOk (analyze_portfolio stocks (.error ()) [("AAPL", 100)]) = true :=
  ⟨⟨by decide, by norm_num [sumWeights]⟩,
   report_independent_of_live_data.2 () [("AAPL", 100)] (by decide) (by norm_num [sumWeights])⟩

/-- Claim C6: `fetch_live_data_batch` never raises: a provider-level
exception maps every requested symbol to the absent entry, and a symbol
whose historical data is empty is mapped to the absent entry as well. -/
theorem fetch_live_never_raises (symbols : List String) :
    (∀ e, fetch_live_data_batch (.error e) symbols
        = symbols.map (fun s => (s, ⟨none, none⟩))) ∧
    (∀ (hist : String → List ℚ) (s : String), s ∈ symbols → hist s = [] →
      (fetch_live_data_batch (.ok hist) symbols).lookup s = some ⟨none, none⟩) := by
  constructor
  · intro e; rfl
  · intro hist s hmem hempty
    have hstep : fetch_live_data_batch (.ok hist) symbols =
        if symbols.any (fun x => histRaisesAt (hist x)) then
          symbols.map (fun x => (x, ⟨none, none⟩))
        else symbols.map (fun x => (x, liveEntryFor (hist x))) := rfl
    rw [hstep]
    by_cases hr : symbols.any (fun x => histRaisesAt (hist x))
    · rw [if_pos hr, lookup_map_self (fun _ => (⟨none, none⟩ : LiveEntry)) s symbols hmem]
    · rw [if_neg hr, lookup_map_self (fun x => liveEntryFor (hist x)) s symbols hmem]
      simp [liveEntryFor, hempty]

/-- Witness for C6: a batch over `["AAPL", "ZZZZ"]` where the provider
returns an empty history for every symbol. -/
theorem fetch_live_never_raises_witness :
    ("AAPL" ∈ ["AAPL", "ZZZZ"] ∧ (fun _ : String => ([] : List ℚ)) "AAPL" = []) ∧
    (fetch_live_data_batch (.ok (fun _ => [])) ["AAPL", "ZZZZ"]).lookup "AAPL"
      = some ⟨none, none⟩ :=
  ⟨⟨by decide, rfl⟩,
   (fetch_live_never_raises ["AAPL", "ZZZZ"]).2 (fun _ => []) "AAPL" (by decide) rfl⟩

/-- Claim C7: for the single-holding portfolio `{"AAPL": 100}` the
accumulated weighted beta and weighted return are exactly the catalog beta
and expected return of `AAPL`, and the reported values are `1.2` and
`15.0` unchanged. -/
theorem single_holding_passthrough :
    (stocks.lookup "AAPL").map Stock.beta
        = some ((runLoop stocks (sumWeights [("AAPL", 100)]) [("AAPL", 100)]).weighted_beta) ∧
    (stocks.lookup "AAPL").map Stock.ret
        = some ((runLoop stocks (sumWeights [("AAPL", 100)]) [("AAPL", 100)]).weighted_return) ∧
    (analyze_portfolio stocks (.error ()) [("AAPL", 100)]).toOption.map Report.weighted_beta
        = some 1.2 ∧
    (analyze_portfolio stocks (.error ()) [("AAPL", 100)]).toOption.map Report.weighted_return
        = some 15.0 := by
  refine ⟨?_, ?_, ?_, ?_⟩ <;>
    norm_num [analyze_portfolio, runLoop, stepSymbol, bump, sumWeights, lookup_AAPL,
      round2, roundTo, pyRound, Except.toOption]

/-- Counterexample to C3 as stated: `analyze({"AAPL": 50, "ZZZZ": 50})`
reports weighted beta `0.6`, not the `1.2` of `analyze({"AAPL": 100})`, so
the two weighted metrics are not the same. -/
theorem unknown_ticker_metrics_cex :
    (analyze_portfolio stocks (.error ()) [("AAPL", 50), ("ZZZZ", 50)]).toOption.map
        Report.weighted_beta = some 0.6 ∧
    (analyze_portfolio stocks (.error ()) [("AAPL", 100)]).toOption.map
        Report.weighted_beta = some 1.2 ∧
    (0.6 : ℚ) ≠ 1.2 := by
  refine ⟨?_, ?_, by norm_num⟩ <;>
    norm_num [analyze_portfolio, runLoop, stepSymbol, bump, sumWeights, lookup_AAPL,
      lookup_ZZZZ, round2, roundTo, pyRound, Except.toOption]

/-- Claim C3 amended: the unknown ticker `ZZZZ` is skipped from every
weighted metric and from the breakdowns, while the normalization total
stays the full sum `100`, so `analyze({"AAPL": 50, "ZZZZ": 50})` yields
weighted metrics exactly half those of `analyze({"AAPL": 100})`. -/
theorem unknown_ticker_dilution :
    (runLoop stocks 100 [("AAPL", 50), ("ZZZZ", 50)]).weighted_beta
        = (runLoop stocks 100 [("AAPL", 100)]).weighted_beta / 2 ∧
    (runLoop stocks 100 [("AAPL", 50), ("ZZZZ", 50)]).weighted_return
        = (runLoop stocks 100 [("AAPL", 100)]).weighted_return / 2 ∧
    (runLoop stocks 100 [("AAPL", 50), ("ZZZZ", 50)]).weighted_volatility
        = (runLoop stocks 100 [("AAPL", 100)]).weighted_volatility / 2 ∧
    (analyze_portfolio stocks (.error ()) [("AAPL", 50), ("ZZZZ", 50)]).toOption.map
        Report.sector_breakdown = some [("Technology", 50)] ∧
    (analyze_portfolio stocks (.error ()) [("AAPL", 50), ("ZZZZ", 50)]).toOption.map
        Report.total_allocation = some 100 := by
  refine ⟨?_, ?_, ?_, ?_, ?_⟩ <;>
    norm_num [analyze_portfolio, runLoop, stepSymbol, bump, sumWeights, lookup_AAPL,
      lookup_ZZZZ, round2, round1, roundTo, pyRound, Except.toOption]

/-- Claim C10: validation rejects exactly the empty map and the maps whose
weight sum is zero; no non-negativity check is performed, so any other map
— negative weights included — produces a report. -/
theorem validation_iff (o : ProviderOutcome) (p : List (String × ℚ)) :
    isOk (analyze_portfolio stocks o p) = true ↔ (p ≠ [] ∧ sumWeights p ≠ 0) := by
  unfold analyze_portfolio
  by_cases h1 : p.isEmpty
  · simp [h1, isOk, List.isEmpty_iff.mp h1]
  · have hne : p ≠ [] := by simpa [List.isEmpty_iff] using h1
    by_cases h2 : sumWeights p = 0
    · simp [h1, h2, isOk, hne]
    · simp [h1, h2, isOk, hne]

/-- Witness for C10: a map with a negative weight is accepted because its
sum `50` is non-zero. -/
theorem validation_iff_witness :
    isOk (analyze_portfolio stocks (.error ()) [("AAPL", -50), ("GOOGL", 100)]) = true :=
  (validation_iff (.error ()) [("AAPL", -50), ("GOOGL", 100)]).mpr
    ⟨by decide, by norm_num [sumWeights]⟩

/-- Claim C2: for every valid weight map the reported risk tier is `High`
when the accumulated weighted beta exceeds `1.3`, else `Medium` when it
exceeds `0.8`, else `Low` (strict comparisons); a synthetic single-holding
catalog beta of `1.3` classifies as `Medium`, `1.31` as `High`, `0.8` as
`Low`, and `0.81` as `Medium`. -/
theorem riskTier_thresholds :
    (∀ (catalog : List (String × Stock)) (o : ProviderOutcome) (p : List (String × ℚ)),
      p ≠ [] → sumWeights p ≠ 0 →
      (analyze_portfolio catalog o p).toOption.map Report.portfolio_risk =
        some (if (runLoop catalog (sumWeights p) p).weighted_beta > 1.3 then "High"
          else if (runLoop catalog (sumWeights p) p).weighted_beta > 0.8 then "Medium"
          else "Low")) ∧
    tierAt 1.3 = some "Medium" ∧ tierAt 1.31 = some "High" ∧
    tierAt 0.8 = some "Low" ∧ tierAt 0.81 = some "Medium" := by
  refine ⟨?_, ?_, ?_, ?_, ?_⟩
  · intro catalog o p h1 h2
    rw [analyze_portfolio_ok catalog o p h1 h2]
    rfl
  all_goals
    norm_num [tierAt, synthCatalog, analyze_portfolio, runLoop, stepSymbol, bump,
      sumWeights, List.lookup, round2, roundTo, pyRound, Except.toOption]

/-- Witness for C2 at the single-holding map `{"AAPL": 100}`. -/
theorem riskTier_thresholds_witness :
    ([(("AAPL" : String), (100 : ℚ))] ≠ [] ∧ sumWeights [("AAPL", 100)] ≠ 0) ∧
    (analyze_portfolio stocks (.error ()) [("AAPL", 100)]).toOption.map Report.portfolio_risk =
      some (if (runLoop stocks (sumWeights [("AAPL", 100)]) [("AAPL", 100)]).weighted_beta > 1.3
        then "High"
        else if (runLoop stocks (sumWeights [("AAPL", 100)]) [("AAPL", 100)]).weighted_beta > 0.8
        then "Medium" else "Low") :=
  ⟨⟨by decide, by norm_num [sumWeights]⟩,
   riskTier_thresholds.1 stocks (.error ()) [("AAPL", 100)] (by decide) (by norm_num [sumWeights])⟩

/-- Claim C9: when no symbol of a valid weight map is in the catalog, the
analysis still returns a report with all three weighted metrics `0`, risk
tier `Low`, and empty sector and risk breakdowns. -/
theorem all_unknown_report_zero (o : ProviderOutcome) (p : List (String × ℚ))
    (h1 : p ≠ []) (h2 : sumWeights p ≠ 0)
    (h3 : ∀ s ∈ p.map Prod.fst, stocks.lookup s = none) :
    (analyze_portfolio stocks o p).toOption = some
      { total_allocation := sumWeights p, weighted_beta := 0, weighted_return := 0,
        weighted_volatility := 0, portfolio_risk := "Low",
        sector_breakdown := [], risk_distribution := [] } := by
  rw [analyze_portfolio_ok stocks o p h1 h2, runLoop_all_unknown stocks (sumWeights p) p h3]
  norm_num [round2, roundTo, pyRound, Except.toOption]

/-- Witness for C9 at the all-unknown map `{"ZZZZ": 50}`. -/
theorem all_unknown_report_zero_witness :
    ([(("ZZZZ" : String), (50 : ℚ))] ≠ [] ∧ sumWeights [("ZZZZ", 50)] ≠ 0 ∧
      (∀ s ∈ [(("ZZZZ" : String), (50 : ℚ))].map Prod.fst, stocks.lookup s = none)) ∧
    (analyze_portfolio stocks (.error ()) [("ZZZZ", 50)]).toOption = some
      { total_allocation := sumWeights [(("ZZZZ" : String), (50 : ℚ))], weighted_beta := 0,
        weighted_return := 0, weighted_volatility := 0, portfolio_risk := "Low",
        sector_breakdown := [], risk_distribution := [] } :=
  ⟨⟨by decide, by norm_num [sumWeights], by simpa using lookup_ZZZZ⟩,
   all_unknown_report_zero (.error ()) [("ZZZZ", 50)] (by decide)
     (by norm_num [sumWeights]) (by simpa using lookup_ZZZZ)⟩

/-- Counterexample to C8 as stated: for `{"AAPL": 1, "JPM": 2}` the
reported Technology percentage is `33.3` (one decimal place), while the
two-decimal rounding of the underlying percentage `100 / 3` is `33.33`;
and for `{"AAPL": 100.555}` the reported total allocation is the
unrounded `100.555`, whose two-decimal rounding differs. -/
theorem rounding_cex :
    (analyze_portfolio stocks (.error ()) [("AAPL", 1), ("JPM", 2)]).toOption.map
        (fun r => r.sector_breakdown.lookup "Technology") = some (some 33.3) ∧
    round2 (1 / 3 * 100) = 33.33 ∧ (33.3 : ℚ) ≠ 33.33 ∧
    (analyze_portfolio stocks (.error ()) [("AAPL", 100.555)]).toOption.map
        Report.total_allocation = some 100.555 ∧
    round2 100.555 ≠ 100.555 := by
  refine ⟨?_, ?_, by norm_num, ?_, ?_⟩ <;>
    norm_num [analyze_portfolio, runLoop, stepSymbol, bump, sumWeights, lookup_AAPL, lookup_JPM,
      round2, round1, roundTo, pyRound, Except.toOption, List.lookup]

/-- Claim C8 amended: the three weighted statistics are reported rounded
to two decimal places of their full-precision accumulations, the
breakdown percentages are reported rounded to one decimal place, and the
total allocation is reported unrounded. -/
theorem rounding_policy (catalog : List (String × Stock)) (o : ProviderOutcome)
    (p : List (String × ℚ)) (h1 : p ≠ []) (h2 : sumWeights p ≠ 0) :
    (analyze_portfolio catalog o p).toOption = some
      { total_allocation := sumWeights p,
        weighted_beta := round2 (runLoop catalog (sumWeights p) p).weighted_beta,
        weighted_return := round2 (runLoop catalog (sumWeights p) p).weighted_return,
        weighted_volatility := round2 (runLoop catalog (sumWeights p) p).weighted_volatility,
        portfolio_risk :=
          if (runLoop catalog (sumWeights p) p).weighted_beta > 1.3 then "High"
          else if (runLoop catalog (sumWeights p) p).weighted_beta > 0.8 then "Medium"
          else "Low",
        sector_breakdown :=
          (runLoop catalog (sumWeights p) p).sectors.map
            (fun sw => (sw.1, round1 (sw.2 / sumWeights p * 100))),
        risk_distribution :=
          (runLoop catalog (sumWeights p) p).risk_levels.map
            (fun rw => (rw.1, round1 (rw.2 / sumWeights p * 100))) } := by
  rw [analyze_portfolio_ok catalog o p h1 h2]; rfl

/-- Witness for the amended C8 at `{"AAPL": 100}`. -/
theorem rounding_policy_witness :
    ([(("AAPL" : String), (100 : ℚ))] ≠ [] ∧ sumWeights [("AAPL", 100)] ≠ 0) ∧
    (analyze_portfolio stocks (.error ()) [("AAPL", 100)]).toOption = some
      { total_allocation := sumWeights [(("AAPL" : String), (100 : ℚ))],
        weighted_beta := round2 (runLoop stocks (sumWeights [(("AAPL" : String), (100 : ℚ))])
          [("AAPL", 100)]).weighted_beta,
        weighted_return := round2 (runLoop stocks (sumWeights [(("AAPL" : String), (100 : ℚ))])
          [("AAPL", 100)]).weighted_return,
        weighted_volatility := round2 (runLoop stocks (sumWeights [(("AAPL" : String), (100 : ℚ))])
          [("AAPL", 100)]).weighted_volatility,
        portfolio_risk :=
          if (runLoop stocks (sumWeights [(("AAPL" : String), (100 : ℚ))])
              [("AAPL", 100)]).weighted_beta > 1.3 then "High"
          else if (runLoop stocks (sumWeights [(("AAPL" : String), (100 : ℚ))])
              [("AAPL", 100)]).weighted_beta > 0.8 then "Medium"
          else "Low",
        sector_breakdown :=
          (runLoop stocks (sumWeights [(("AAPL" : String), (100 : ℚ))]) [("AAPL", 100)]).sectors.map
            (fun sw => (sw.1, round1 (sw.2 / sumWeights [(("AAPL" : String), (100 : ℚ))] * 100))),
        risk_distribution :=
          (runLoop stocks (sumWeights [(("AAPL" : String), (100 : ℚ))])
              [("AAPL", 100)]).risk_levels.map
            (fun rw => (rw.1, round1 (rw.2 / sumWeights [(("AAPL" : String), (100 : ℚ))] * 100))) } :=
  ⟨⟨by decide, by norm_num [sumWeights]⟩,
   rounding_policy stocks (.error ()) [("AAPL", 100)] (by decide) (by norm_num [sumWeights])⟩

/-- Counterexample to C4 as stated: `{"AAPL": 100, "ZZZZ": 0}` has a
breakdown percentage sum of exactly `100` although `ZZZZ` is not in the
catalog, and `{"AAPL": 150, "ZZZZ": -50}` (negative weight, non-zero sum)
has a breakdown percentage sum of `150`, above `100`. -/
theorem breakdown_sum_cex :
    (analyze_portfolio stocks (.error ()) [("AAPL", 100), ("ZZZZ", 0)]).toOption.map
        (fun r => valuesSum r.sector_breakdown) = some 100 ∧
    stocks.lookup "ZZZZ" = none ∧
    (analyze_portfolio stocks (.error ()) [("AAPL", 150), ("ZZZZ", -50)]).toOption.map
        (fun r => valuesSum r.sector_breakdown) = some 150 ∧
    ¬ ((150 : ℚ) ≤ 100) := by
  refine ⟨?_, lookup_ZZZZ, ?_, by norm_num⟩ <;>
    norm_num [analyze_portfolio, runLoop, stepSymbol, bump, sumWeights, lookup_AAPL, lookup_ZZZZ,
      valuesSum, round2, round1, roundTo, pyRound, Except.toOption]

/-- Claim C4 amended: for every non-empty weight map with non-negative
weights and non-zero sum, the analysis succeeds and the pre-rounding
sector and risk breakdown percentages each sum to at most `100`, with
equality exactly when the total weight on symbols absent from the catalog
is zero. -/
theorem breakdown_sum_le_100 (o : ProviderOutcome) (p : List (String × ℚ))
    (h1 : p ≠ []) (hnn : ∀ e ∈ p, 0 ≤ e.2) (h2 : sumWeights p ≠ 0) :
    isOk (analyze_portfolio stocks o p) = true ∧
    valuesSum (runLoop stocks (sumWeights p) p).sectors / sumWeights p * 100 ≤ 100 ∧
    (valuesSum (runLoop stocks (sumWeights p) p).sectors / sumWeights p * 100 = 100 ↔
      unknownWeight stocks p = 0) ∧
    valuesSum (runLoop stocks (sumWeights p) p).risk_levels / sumWeights p * 100 ≤ 100 ∧
    (valuesSum (runLoop stocks (sumWeights p) p).risk_levels / sumWeights p * 100 = 100 ↔
      unknownWeight stocks p = 0) := by
  have ht : 0 < sumWeights p := by
    have hge : 0 ≤ sumWeights p := by
      unfold sumWeights
      apply List.sum_nonneg
      intro x hx
      rcases List.mem_map.mp hx with ⟨e, he, rfl⟩
      exact hnn e he
    exact lt_of_le_of_ne hge (Ne.symm h2)
  have hsum := runLoop_breakdown_sums stocks (sumWeights p) p
  have hk : knownWeight stocks p + unknownWeight stocks p = sumWeights p :=
    known_add_unknown stocks p
  have hu : 0 ≤ unknownWeight stocks p := unknownWeight_nonneg stocks p hnn
  have hkle : knownWeight stocks p ≤ sumWeights p := by linarith
  have hfrac : knownWeight stocks p / sumWeights p * 100 ≤ 100 := by
    have := (div_le_one ht).mpr hkle
    nlinarith
  have hiff : knownWeight stocks p / sumWeights p * 100 = 100 ↔ unknownWeight stocks p = 0 := by
    constructor
    · intro h
      have hone : knownWeight stocks p / sumWeights p = 1 := by linarith
      have hke : knownWeight stocks p = sumWeights p :=
        (div_eq_one_iff_eq (ne_of_gt ht)).mp hone
      linarith
    · intro h
      have hke : knownWeight stocks p = sumWeights p := by linarith
      rw [hke, div_self (ne_of_gt ht)]
      norm_num
  refine ⟨?_, ?_, ?_, ?_, ?_⟩
  · rw [analyze_portfolio_ok stocks o p h1 h2]; rfl
  · rw [hsum.1]; exact hfrac
  · rw [hsum.1]; exact hiff
  · rw [hsum.2]; exact hfrac
  · rw [hsum.2]; exact hiff

/-- Witness for the amended C4 at `{"AAPL": 50, "ZZZZ": 50}`. -/
theorem breakdown_sum_le_100_witness :
    ([(("AAPL" : String), (50 : ℚ)), ("ZZZZ", 50)] ≠ [] ∧
      (∀ e ∈ [(("AAPL" : String), (50 : ℚ)), ("ZZZZ", 50)], 0 ≤ e.2) ∧
      sumWeights [("AAPL", 50), ("ZZZZ", 50)] ≠ 0) ∧
    valuesSum (runLoop stocks (sumWeights [(("AAPL" : String), (50 : ℚ)), ("ZZZZ", 50)])
        [("AAPL", 50), ("ZZZZ", 50)]).sectors
      / sumWeights [(("AAPL" : String), (50 : ℚ)), ("ZZZZ", 50)] * 100 ≤ 100 :=
  ⟨⟨by decide, by norm_num, by norm_num [sumWeights]⟩,
   (breakdown_sum_le_100 (.error ()) [("AAPL", 50), ("ZZZZ", 50)] (by decide)
     (by norm_num) (by norm_num [sumWeights])).2.1⟩
